import Mathlib

/-!
Verification of the configuration-resolution module of ton-kafka-producer
(`src/config/mod.rs`).

The Rust module is embedded shallowly:

* `PathBuf` is a `String`; `Path.join` models `std::path::Path::join` for
  the cases exercised here (relative or absolute child, empty base,
  base with or without a trailing separator).
* `Ipv4Addr` / `SocketAddrV4` are records of numeric octets and a port.
* `NodeConfig.build_indexer_config` is an `async` method performing one
  optional network query (`public_ip::addr_v4()`), one key-store call
  (`TempKeys::load`) and one filesystem call (`std::fs::create_dir_all`).
  It is embedded as a pure function over an `Env` record holding the
  outcome of each external call, returning the `Result` together with the
  ordered trace of external effects actually performed, so that
  invocation counts and fail-fast ordering become provable statements.
* serde's derived (de)serializers are embedded over a `Value` tree
  mirroring `serde_yaml::Value`, following the derive attributes of each
  struct (`default`, `deny_unknown_fields`, required fields, the special
  treatment of `Option` fields, externally tagged enums).
* the `log4rs` default-settings constant is parsed by an executable
  block-YAML parser model of `serde_yaml::from_str`.
-/

namespace TonKafka

/-- Model of `std::path::PathBuf`: an owned path as a string. -/
abbrev PathBuf := String

/-- Whether a path is absolute (has a root), in the Unix path model:
it begins with the separator. -/
def Path.isAbsolute (p : String) : Bool :=
  p.data.head? = some '/'

/-- Whether a path already ends with the separator. -/
def Path.endsWithSep (p : String) : Bool :=
  p.data.getLast? = some '/'

/-- Model of `std::path::Path::join` (`self.join(path)`): an absolute
`path` replaces `self`; otherwise `path` is pushed onto `self`, inserting
a separator unless `self` is empty or already ends with one. -/
def Path.join (base child : String) : String :=
  if Path.isAbsolute child then child
  else if base = "" then child
  else if Path.endsWithSep base then base ++ child
  else base ++ ("/" ++ child)

/-- Model of `std::net::Ipv4Addr`: four octets, each below 256. -/
structure Ipv4Addr where
  a : Nat
  b : Nat
  c : Nat
  d : Nat
deriving DecidableEq, Repr

/-- Octet bounds of an IPv4 address (`u8` fields in Rust). -/
def Ipv4Addr.wf (ip : Ipv4Addr) : Prop :=
  ip.a < 256 ∧ ip.b < 256 ∧ ip.c < 256 ∧ ip.d < 256

instance (ip : Ipv4Addr) : Decidable ip.wf := by
  unfold Ipv4Addr.wf; infer_instance

instance : DecidablePred Ipv4Addr.wf := fun _ => inferInstance

/-- Lift a predicate to `Option`: trivially true on `none`. Used to state
machine-integer bounds of optional Rust fields. -/
def optProp {α : Type} (p : α → Prop) : Option α → Prop
  | none => True
  | some x => p x

instance {α : Type} (p : α → Prop) [DecidablePred p] (o : Option α) :
    Decidable (optProp p o) :=
  match o with
  | none => Decidable.isTrue trivial
  | some x => inferInstanceAs (Decidable (p x))

/-- Model of `std::net::SocketAddrV4`: an IPv4 address and a `u16` port. -/
structure SocketAddrV4 where
  ip : Ipv4Addr
  port : Nat
deriving DecidableEq, Repr

/-- Modelled from the spec: the identity key material returned by the
`TempKeys::load` load-or-create operation of the `temp_keys` submodule
(`src/config/temp_keys.rs`, not part of the published sources). Its
contents are opaque to the resolver, which only passes it through. -/
structure TempKeys where
  raw : Nat
deriving DecidableEq, Repr

/-- Model of `ton_indexer::OldBlocksPolicy` as consumed by this crate:
either ignore historical blocks or sync from a given `u32` seqno. -/
inductive OldBlocksPolicy where
  | ignore : OldBlocksPolicy
  | sync (from_seqno : Nat) : OldBlocksPolicy
deriving DecidableEq, Repr

namespace ton_indexer

/-- Model of `ton_indexer::NodeConfig`, the resolved runtime
configuration produced by `build_indexer_config`. Option types whose
inner structure the crate never builds or inspects (`StateGcOptions`,
`BlocksGcOptions`, `ShardStateCacheOptions` and the five sub-protocol
option sets, all taken from `Default::default()`) are modelled as
`Unit`. -/
structure NodeConfig where
  ip_address : SocketAddrV4
  adnl_keys : TempKeys
  rocks_db_path : PathBuf
  file_db_path : PathBuf
  state_gc_options : Option Unit
  blocks_gc_options : Option Unit
  shard_state_cache_options : Option Unit
  archives_enabled : Bool
  old_blocks_policy : OldBlocksPolicy
  max_db_memory_usage : Nat
  parallel_archive_downloads : Nat
  adnl_options : Unit
  rldp_options : Unit
  dht_options : Unit
  neighbours_options : Unit
  overlay_shard_options : Unit
deriving DecidableEq, Repr

end ton_indexer

/-- Model of the crate's `NodeConfig` (TON node settings). `u16`, `u32`,
`u64` and `usize` fields are naturals; their bounds are tracked by
`NodeConfig.wf`. -/
structure NodeConfig where
  adnl_public_ip : Option Ipv4Addr
  adnl_port : Nat
  db_path : PathBuf
  temp_keys_path : PathBuf
  max_db_memory_usage : Nat
  parallel_archive_downloads : Nat
  start_from : Option Nat
deriving DecidableEq, Repr

/-- Machine-integer bounds of the Rust field types of `NodeConfig`. -/
def NodeConfig.wf (c : NodeConfig) : Prop :=
  optProp Ipv4Addr.wf c.adnl_public_ip ∧
  c.adnl_port < 2 ^ 16 ∧
  c.max_db_memory_usage < 2 ^ 64 ∧
  c.parallel_archive_downloads < 2 ^ 32 ∧
  optProp (fun n => n < 2 ^ 32) c.start_from

instance (c : NodeConfig) : Decidable c.wf := by
  unfold NodeConfig.wf; infer_instance

/-- Model of `impl Default for NodeConfig`. The field
`max_db_memory_usage` defaults to `ton_indexer::default_max_db_memory_usage()`,
an external engine function (one third of machine RAM); its value is
passed in as the parameter `dmem`. -/
def NodeConfig.default (dmem : Nat) : NodeConfig where
  adnl_public_ip := none
  adnl_port := 30303
  db_path := "db"
  temp_keys_path := "adnl-keys.json"
  max_db_memory_usage := dmem
  parallel_archive_downloads := 16
  start_from := none

/-- Model of `ConfigError` together with the other failure exits of
`build_indexer_config` (an `anyhow::Result` in the source): the explicit
`ConfigError::PublicIpNotFound`, the context-wrapped key-store error, and
the propagated `std::io::Error` of `create_dir_all`. -/
inductive BuildError where
  | publicIpNotFound : BuildError
  | keysLoadFailed (cause : String) : BuildError
  | storagePrepFailed (cause : String) : BuildError
deriving DecidableEq, Repr

/-- External effects `build_indexer_config` can perform, in order. -/
inductive Effect where
  | resolverQuery : Effect
  | keysLoad (path : PathBuf) (force : Bool) : Effect
  | createDirAll (path : PathBuf) : Effect
deriving DecidableEq, Repr

/-- Outcomes of the external collaborators of `build_indexer_config`:
the public-address discovery query, the key store, the filesystem. -/
structure Env where
  public_ip_addr_v4 : Option Ipv4Addr
  temp_keys_load : PathBuf → Bool → Except String TempKeys
  create_dir_all : PathBuf → Except String Unit

/-- The tail of `NodeConfig::build_indexer_config` after the public ip
has been determined: load the temp keys, prepare the DB folder, derive
the old-blocks policy and assemble the resolved configuration. `tr0` is
the trace of effects performed so far (the resolver query, if any). -/
def NodeConfig.finishBuild (self : NodeConfig) (env : Env) (ip_address : Ipv4Addr)
    (tr0 : List Effect) :
    Except BuildError ton_indexer.NodeConfig × List Effect :=
  -- Generate temp keys
  -- TODO (in source): add param to generate new temp keys
  let tr1 := tr0 ++ [Effect.keysLoad self.temp_keys_path false]
  match env.temp_keys_load self.temp_keys_path false with
  | Except.error e => (Except.error (BuildError.keysLoadFailed e), tr1)
  | Except.ok temp_keys =>
    -- Prepare DB folder
    let tr2 := tr1 ++ [Effect.createDirAll self.db_path]
    match env.create_dir_all self.db_path with
    | Except.error e => (Except.error (BuildError.storagePrepFailed e), tr2)
    | Except.ok _ =>
      let old_blocks := match self.start_from with
        | none => OldBlocksPolicy.ignore
        | some a => OldBlocksPolicy.sync a
      -- Done
      (Except.ok {
        ip_address := { ip := ip_address, port := self.adnl_port }
        adnl_keys := temp_keys
        rocks_db_path := Path.join self.db_path "rocksdb"
        file_db_path := Path.join self.db_path "files"
        -- NOTE: State GC is disabled until it is fully tested
        state_gc_options := none
        blocks_gc_options := none
        shard_state_cache_options := some ()
        archives_enabled := false
        old_blocks_policy := old_blocks
        max_db_memory_usage := self.max_db_memory_usage
        parallel_archive_downloads := self.parallel_archive_downloads
        adnl_options := ()
        rldp_options := ()
        dht_options := ()
        neighbours_options := ()
        overlay_shard_options := () }, tr2)

/-- Model of `NodeConfig::build_indexer_config`. Mirrors the source
statement by statement (the part after ip determination is
`NodeConfig.finishBuild`); alongside the `Result` it returns the trace of
external effects performed, in execution order. -/
def NodeConfig.build_indexer_config (self : NodeConfig) (env : Env) :
    Except BuildError ton_indexer.NodeConfig × List Effect :=
  -- Determine public ip
  match self.adnl_public_ip with
  | some address => self.finishBuild env address []
  | none =>
    match env.public_ip_addr_v4 with
    | some address => self.finishBuild env address [Effect.resolverQuery]
    | none => (Except.error BuildError.publicIpNotFound, [Effect.resolverQuery])

/-! Concrete inputs used by the witness theorems. -/

/-- A sample `NodeConfig` with an explicit public address. -/
def cfgExplicitIp : NodeConfig where
  adnl_public_ip := some ⟨127, 0, 0, 1⟩
  adnl_port := 30303
  db_path := "db"
  temp_keys_path := "adnl-keys.json"
  max_db_memory_usage := 1000
  parallel_archive_downloads := 16
  start_from := none

/-- A sample `NodeConfig` without an explicit public address. -/
def cfgAutoIp : NodeConfig :=
  { cfgExplicitIp with adnl_public_ip := none, start_from := some 42 }

/-- A sample environment in which every external call succeeds. -/
def envOk : Env where
  public_ip_addr_v4 := some ⟨1, 2, 3, 4⟩
  temp_keys_load := fun _ _ => Except.ok ⟨7⟩
  create_dir_all := fun _ => Except.ok ()

/-- A sample environment in which address discovery finds no address. -/
def envNoIp : Env :=
  { envOk with public_ip_addr_v4 := none }

/-- The resolved configuration produced from `cfgExplicitIp` in `envOk`. -/
def resExplicitIp : ton_indexer.NodeConfig where
  ip_address := { ip := ⟨127, 0, 0, 1⟩, port := 30303 }
  adnl_keys := ⟨7⟩
  rocks_db_path := "db/rocksdb"
  file_db_path := "db/files"
  state_gc_options := none
  blocks_gc_options := none
  shard_state_cache_options := some ()
  archives_enabled := false
  old_blocks_policy := OldBlocksPolicy.ignore
  max_db_memory_usage := 1000
  parallel_archive_downloads := 16
  adnl_options := ()
  rldp_options := ()
  dht_options := ()
  neighbours_options := ()
  overlay_shard_options := ()

/-- The effect trace of a fully successful resolution of `cfgExplicitIp`. -/
def trExplicitIp : List Effect :=
  [Effect.keysLoad "adnl-keys.json" false, Effect.createDirAll "db"]


/-! The serde data model. `Value` mirrors `serde_yaml::Value`; numbers
are restricted to the unsigned integers this configuration uses. -/

/-- Model of `serde_yaml::Value`. -/
inductive Value where
  | null : Value
  | bool (b : Bool) : Value
  | num (n : Nat) : Value
  | str (s : String) : Value
  | seq (xs : List Value) : Value
  | map (kvs : List (String × Value)) : Value

/-- Field lookup in a serialized mapping: first entry with the key. -/
def Value.lookup (kvs : List (String × Value)) (k : String) : Option Value :=
  (kvs.find? (fun p => p.1 == k)).map (fun p => p.2)

/-- Derived-deserializer behavior for a field whose absence is filled
from a default (container or field `#[serde(default)]`, and `Option`
fields which serde fills with `None` when missing). -/
def fieldWithDefault {α : Type} (kvs : List (String × Value)) (name : String)
    (f : Value → Option α) (d : α) : Option α :=
  match Value.lookup kvs name with
  | none => some d
  | some v => f v

/-- Derived-deserializer behavior for a required field: absence is a
`missing field` error. -/
def requiredField {α : Type} (kvs : List (String × Value)) (name : String)
    (f : Value → Option α) : Option α :=
  match Value.lookup kvs name with
  | none => none
  | some v => f v

/-- serde serialization of an `Option` field: `None` becomes null. -/
def serializeOption {α : Type} (f : α → Value) : Option α → Value
  | none => Value.null
  | some x => f x

/-- serde deserialization of an `Option`: null is `None`, anything else
is deserialized as the payload of `Some`. -/
def deserializeOption {α : Type} (f : Value → Option α) : Value → Option (Option α)
  | Value.null => some none
  | v => (f v).map some

/-! Decimal display and parse, as used by the `Display`/`FromStr`
implementations of `Ipv4Addr` and `SocketAddr` which serde delegates to
in human-readable formats. -/

/-- The character of a decimal digit. -/
def digitChar (d : Nat) : Char := Char.ofNat (48 + d)

/-- The digit of a decimal character. -/
def charToDigit (c : Char) : Option Nat :=
  if 48 ≤ c.toNat ∧ c.toNat ≤ 57 then some (c.toNat - 48) else none

/-- The decimal representation of a natural, most significant digit
first (Rust `Display` for unsigned integers). -/
def natToChars (n : Nat) : List Char :=
  if n = 0 then ['0'] else ((Nat.digits 10 n).map digitChar).reverse

/-- The decimal representation as a string. -/
def natToDec (n : Nat) : String := String.mk (natToChars n)

/-- Parse a nonempty all-digit character sequence as a natural. -/
def decToNat (cs : List Char) : Option Nat :=
  if cs = [] then none
  else (cs.mapM charToDigit).map (fun ds => Nat.ofDigits 10 ds.reverse)

/-- Split a character list at every occurrence of `c`; always returns at
least one (possibly empty) chunk. -/
def splitOnChar (c : Char) : List Char → List (List Char)
  | [] => [[]]
  | x :: xs =>
    match splitOnChar c xs with
    | [] => [[]]
    | y :: ys => if x = c then [] :: y :: ys else (x :: y) :: ys

/-- Rust `Display` for `Ipv4Addr`: dotted decimal octets. -/
def Ipv4Addr.toDisplay (ip : Ipv4Addr) : String :=
  String.mk (natToChars ip.a ++ '.' :: (natToChars ip.b ++ '.' ::
    (natToChars ip.c ++ '.' :: natToChars ip.d)))

/-- Model of Rust `FromStr` for `Ipv4Addr`: four dot-separated decimal
octets, each below 256. -/
def Ipv4Addr.parse (s : String) : Option Ipv4Addr :=
  match splitOnChar '.' s.data with
  | [w, x, y, z] => do
    let a ← decToNat w
    let b ← decToNat x
    let c ← decToNat y
    let d ← decToNat z
    if a < 256 ∧ b < 256 ∧ c < 256 ∧ d < 256 then some ⟨a, b, c, d⟩ else none
  | _ => none

/-- Model of `std::net::SocketAddr` restricted to its V4 case (the form
this configuration uses, e.g. `0.0.0.0:8081`). -/
structure SocketAddr where
  ip : Ipv4Addr
  port : Nat
deriving DecidableEq, Repr

/-- Machine bounds of a V4 socket address. -/
def SocketAddr.wf (a : SocketAddr) : Prop :=
  a.ip.wf ∧ a.port < 2 ^ 16

instance (a : SocketAddr) : Decidable a.wf := by
  unfold SocketAddr.wf; infer_instance

instance : DecidablePred SocketAddr.wf := fun _ => inferInstance

/-- Rust `Display` for a V4 `SocketAddr`: `ip:port`. -/
def SocketAddr.toDisplay (a : SocketAddr) : String :=
  String.mk (a.ip.toDisplay.data ++ ':' :: natToChars a.port)

/-- Model of Rust `FromStr` for a V4 `SocketAddr`. -/
def SocketAddr.parse (s : String) : Option SocketAddr :=
  match splitOnChar ':' s.data with
  | [ipcs, portcs] => do
    let ip ← Ipv4Addr.parse (String.mk ipcs)
    let p ← decToNat portcs
    if p < 2 ^ 16 then some ⟨ip, p⟩ else none
  | _ => none

/-! Scalar (de)serializers for the primitive field types. -/

/-- Deserialize a Rust unsigned integer of the given bit width. -/
def deserializeUint (width : Nat) (v : Value) : Option Nat :=
  match v with
  | Value.num n => if n < 2 ^ width then some n else none
  | _ => none

/-- Deserialize a Rust `String` (or UTF-8 `PathBuf`). -/
def deserializeString (v : Value) : Option String :=
  match v with
  | Value.str s => some s
  | _ => none

/-- serde serialization of `Ipv4Addr` (human-readable: its display). -/
def Ipv4Addr.serialize (ip : Ipv4Addr) : Value := Value.str ip.toDisplay

/-- serde deserialization of `Ipv4Addr`. -/
def Ipv4Addr.deserialize (v : Value) : Option Ipv4Addr :=
  match v with
  | Value.str s => Ipv4Addr.parse s
  | _ => none

/-! The block-YAML parser model of `serde_yaml::from_str`, covering
block mappings, block sequences of scalars, and plain / double-quoted /
boolean / numeric scalars — the subset the default logger document and
the configuration documents of this crate use. -/

/-- Drop spaces on both ends. -/
def trimSpaces (cs : List Char) : List Char :=
  ((cs.dropWhile (fun c => c = ' ')).reverse.dropWhile (fun c => c = ' ')).reverse

/-- Split at the first occurrence of `c`, if any. -/
def splitFirst (c : Char) : List Char → Option (List Char × List Char)
  | [] => none
  | x :: xs =>
    if x = c then some ([], xs)
    else (splitFirst c xs).map (fun p => (x :: p.1, p.2))

/-- Resolve a YAML scalar: double-quoted strings, booleans, decimal
integers, and plain strings. -/
def parseScalar (cs : List Char) : Value :=
  let t := trimSpaces cs
  if t = [] then Value.null
  else if 2 ≤ t.length ∧ t.head? = some '"' ∧ t.getLast? = some '"' then
    Value.str (String.mk ((t.drop 1).dropLast))
  else if t = "true".data then Value.bool true
  else if t = "false".data then Value.bool false
  else
    match decToNat t with
    | some n => Value.num n
    | none => Value.str (String.mk t)

/-- The lines of a YAML document: indentation plus content, blank lines
dropped. -/
def yamlLines (s : String) : List (Nat × List Char) :=
  (splitOnChar '\n' s.data).filterMap fun line =>
    let content := line.dropWhile (fun c => c = ' ')
    if content = [] then none
    else some (line.length - content.length, content)

mutual

/-- Parse a block (mapping or sequence) whose entries sit at
indentation `i`; returns the value and the unconsumed lines. -/
def parseBlock (fuel : Nat) (i : Nat) (lines : List (Nat × List Char)) :
    Option (Value × List (Nat × List Char)) :=
  match fuel with
  | 0 => none
  | fuel + 1 =>
    match lines with
    | [] => some (Value.null, [])
    | (_, cs) :: _ =>
      if cs.head? = some '-' then
        match parseSeqEntries fuel i lines with
        | none => none
        | some (xs, rem) => some (Value.seq xs, rem)
      else
        match parseMapEntries fuel i lines with
        | none => none
        | some (es, rem) => some (Value.map es, rem)

/-- Parse consecutive `key: value` / `key:` entries at indentation `i`. -/
def parseMapEntries (fuel : Nat) (i : Nat) (lines : List (Nat × List Char)) :
    Option (List (String × Value) × List (Nat × List Char)) :=
  match fuel with
  | 0 => none
  | fuel + 1 =>
    match lines with
    | [] => some ([], [])
    | (j, cs) :: rest =>
      if j < i then some ([], (j, cs) :: rest)
      else if i < j then none
      else
        match splitFirst ':' cs with
        | none => none
        | some (keyCs, afterCs) =>
          let key := String.mk (trimSpaces keyCs)
          let after := trimSpaces afterCs
          if after = [] then
            match rest with
            | [] => some ([(key, Value.null)], [])
            | (k, _) :: _ =>
              if i < k then
                match parseBlock fuel k rest with
                | none => none
                | some (v, rem) =>
                  match parseMapEntries fuel i rem with
                  | none => none
                  | some (es, rem2) => some ((key, v) :: es, rem2)
              else
                match parseMapEntries fuel i rest with
                | none => none
                | some (es, rem2) => some ((key, Value.null) :: es, rem2)
          else
            match parseMapEntries fuel i rest with
            | none => none
            | some (es, rem2) => some ((key, parseScalar after) :: es, rem2)

/-- Parse consecutive `- item` scalar entries at indentation `i`. -/
def parseSeqEntries (fuel : Nat) (i : Nat) (lines : List (Nat × List Char)) :
    Option (List Value × List (Nat × List Char)) :=
  match fuel with
  | 0 => none
  | fuel + 1 =>
    match lines with
    | [] => some ([], [])
    | (j, cs) :: rest =>
      if j < i then some ([], (j, cs) :: rest)
      else if i < j then none
      else
        match cs with
        | '-' :: item =>
          match parseSeqEntries fuel i rest with
          | none => none
          | some (xs, rem) => some (parseScalar item :: xs, rem)
        | _ => none

end

/-- Model of `serde_yaml::from_str` on the supported YAML subset. -/
def yamlFromStr (s : String) : Option Value :=
  match yamlLines s with
  | [] => some Value.null
  | (i, cs) :: rest =>
    match parseBlock (((i, cs) :: rest).length * ((i, cs) :: rest).length + 4) i
        ((i, cs) :: rest) with
    | some (v, []) => some v
    | _ => none

/-- The `DEFAULT_LOG4RS_SETTINGS` constant of `default_logger_settings`,
verbatim from the source (a Rust raw string). -/
def DEFAULT_LOG4RS_SETTINGS : String :=
  "\n    appenders:\n      stdout:\n        kind: console\n        encoder:\n          pattern: \"\x7bd(%Y-%m-%d %H:%M:%S %Z)(utc)\x7d - \x7bh(\x7bl\x7d)\x7d \x7bM\x7d = \x7bm\x7d \x7bn\x7d\"\n    root:\n      level: error\n      appenders:\n        - stdout\n    loggers:\n      ton_kafka_producer:\n        level: info\n        appenders:\n          - stdout\n        additive: false\n    "

/-- Model of `default_logger_settings()`: parse the built-in constant.
The source unwraps the parse result; the default here is inert because
the parse is proved to succeed. -/
def default_logger_settings : Value :=
  (yamlFromStr DEFAULT_LOG4RS_SETTINGS).getD Value.null

/-! The remaining declarative configuration structures. -/

/-- Model of `StatesConfig` (the state-serving RPC endpoint address). -/
structure StatesConfig where
  address : SocketAddr
deriving DecidableEq, Repr

/-- Model of `SaslConfig`. -/
structure SaslConfig where
  security_protocol : String
  ssl_ca_location : String
  sasl_mechanism : String
  sasl_username : String
  sasl_password : String
deriving DecidableEq, Repr

/-- Model of `impl Default for SaslConfig` (derived): empty strings. -/
def SaslConfig.default : SaslConfig := ⟨"", "", "", "", ""⟩

/-- Model of `SecurityConfig`: one variant, SASL. -/
inductive SecurityConfig where
  | Sasl (c : SaslConfig) : SecurityConfig
deriving DecidableEq, Repr

/-- Model of `KafkaProducerConfig`. -/
structure KafkaProducerConfig where
  topic : String
  brokers : String
  message_timeout_ms : Option Nat
  message_max_size : Option Nat
  attempt_interval_ms : Nat
  security_config : Option SecurityConfig
deriving DecidableEq, Repr

/-- Model of `impl Default for KafkaProducerConfig` (derived): the
empty/inactive producer. -/
def KafkaProducerConfig.default : KafkaProducerConfig :=
  ⟨"", "", none, none, 0, none⟩

/-- Machine bounds of the `u32`/`usize`/`u64` producer fields. -/
def KafkaProducerConfig.wf (c : KafkaProducerConfig) : Prop :=
  optProp (fun n => n < 2 ^ 32) c.message_timeout_ms ∧
  optProp (fun n => n < 2 ^ 64) c.message_max_size ∧
  c.attempt_interval_ms < 2 ^ 64

instance (c : KafkaProducerConfig) : Decidable c.wf := by
  unfold KafkaProducerConfig.wf; infer_instance

/-- Model of `KafkaConfig`. -/
structure KafkaConfig where
  raw_transaction_producer : KafkaProducerConfig
deriving DecidableEq, Repr

/-- Model of `impl Default for KafkaConfig` (derived). -/
def KafkaConfig.default : KafkaConfig := ⟨KafkaProducerConfig.default⟩

/-- Model of `AppConfig`, the root aggregate. -/
structure AppConfig where
  rpc_config : Option StatesConfig
  node_settings : NodeConfig
  kafka_settings : KafkaConfig
  logger_settings : Value

/-- Model of `impl Default for AppConfig` (derived): every field from its
own `Default`; `serde_yaml::Value::default()` is null. `dmem` stands for
`ton_indexer::default_max_db_memory_usage()` as in `NodeConfig.default`. -/
def AppConfig.default (dmem : Nat) : AppConfig where
  rpc_config := none
  node_settings := NodeConfig.default dmem
  kafka_settings := KafkaConfig.default
  logger_settings := Value.null

/-- Machine bounds across the whole declarative configuration. -/
def AppConfig.wf (c : AppConfig) : Prop :=
  optProp SocketAddr.wf (c.rpc_config.map StatesConfig.address) ∧
  c.node_settings.wf ∧
  c.kafka_settings.raw_transaction_producer.wf

instance (c : AppConfig) : Decidable c.wf := by
  unfold AppConfig.wf; infer_instance

/-! Derived serializers: each struct serializes to a mapping of all its
fields in declaration order; the externally tagged enum serializes to a
singleton mapping keyed by the variant name. -/

/-- Serialization of `StatesConfig`. -/
def StatesConfig.serialize (c : StatesConfig) : Value :=
  Value.map [("address", Value.str c.address.toDisplay)]

/-- Serialization of `SaslConfig`. -/
def SaslConfig.serialize (c : SaslConfig) : Value :=
  Value.map [("security_protocol", Value.str c.security_protocol),
    ("ssl_ca_location", Value.str c.ssl_ca_location),
    ("sasl_mechanism", Value.str c.sasl_mechanism),
    ("sasl_username", Value.str c.sasl_username),
    ("sasl_password", Value.str c.sasl_password)]

/-- Serialization of `SecurityConfig` (externally tagged enum). -/
def SecurityConfig.serialize : SecurityConfig → Value
  | SecurityConfig.Sasl c => Value.map [("Sasl", c.serialize)]

/-- Serialization of `KafkaProducerConfig`. -/
def KafkaProducerConfig.serialize (c : KafkaProducerConfig) : Value :=
  Value.map [("topic", Value.str c.topic),
    ("brokers", Value.str c.brokers),
    ("message_timeout_ms", serializeOption Value.num c.message_timeout_ms),
    ("message_max_size", serializeOption Value.num c.message_max_size),
    ("attempt_interval_ms", Value.num c.attempt_interval_ms),
    ("security_config",
      serializeOption SecurityConfig.serialize c.security_config)]

/-- Serialization of `KafkaConfig`. -/
def KafkaConfig.serialize (c : KafkaConfig) : Value :=
  Value.map [("raw_transaction_producer",
    c.raw_transaction_producer.serialize)]

/-- Serialization of `NodeConfig`. -/
def NodeConfig.serialize (c : NodeConfig) : Value :=
  Value.map [("adnl_public_ip",
      serializeOption Ipv4Addr.serialize c.adnl_public_ip),
    ("adnl_port", Value.num c.adnl_port),
    ("db_path", Value.str c.db_path),
    ("temp_keys_path", Value.str c.temp_keys_path),
    ("max_db_memory_usage", Value.num c.max_db_memory_usage),
    ("parallel_archive_downloads", Value.num c.parallel_archive_downloads),
    ("start_from", serializeOption Value.num c.start_from)]

/-- Serialization of `AppConfig`. -/
def AppConfig.serialize (c : AppConfig) : Value :=
  Value.map [("rpc_config",
      serializeOption StatesConfig.serialize c.rpc_config),
    ("node_settings", c.node_settings.serialize),
    ("kafka_settings", c.kafka_settings.serialize),
    ("logger_settings", c.logger_settings)]

/-! Derived deserializers, following each struct's serde attributes. -/

/-- The declared field names of `NodeConfig`
(`#[serde(default, deny_unknown_fields)]`). -/
def nodeConfigFields : List String :=
  ["adnl_public_ip", "adnl_port", "db_path", "temp_keys_path",
    "max_db_memory_usage", "parallel_archive_downloads", "start_from"]

/-- The declared field names of `AppConfig` (no `deny_unknown_fields`). -/
def appConfigFields : List String :=
  ["rpc_config", "node_settings", "kafka_settings", "logger_settings"]

/-- The declared field names of `KafkaConfig` (no `deny_unknown_fields`). -/
def kafkaConfigFields : List String := ["raw_transaction_producer"]

/-- The declared field names of `KafkaProducerConfig`
(no `deny_unknown_fields`). -/
def kafkaProducerConfigFields : List String :=
  ["topic", "brokers", "message_timeout_ms", "message_max_size",
    "attempt_interval_ms", "security_config"]

/-- Deserialization of `StatesConfig`: `address` required, unknown
fields ignored. -/
def StatesConfig.deserialize (v : Value) : Option StatesConfig :=
  match v with
  | Value.map kvs => do
    let address ← requiredField kvs "address"
      (fun v => match v with
        | Value.str s => SocketAddr.parse s
        | _ => none)
    some ⟨address⟩
  | _ => none

/-- Deserialization of `SaslConfig`: five required strings, unknown
fields ignored. -/
def SaslConfig.deserialize (v : Value) : Option SaslConfig :=
  match v with
  | Value.map kvs => do
    let security_protocol ← requiredField kvs "security_protocol" deserializeString
    let ssl_ca_location ← requiredField kvs "ssl_ca_location" deserializeString
    let sasl_mechanism ← requiredField kvs "sasl_mechanism" deserializeString
    let sasl_username ← requiredField kvs "sasl_username" deserializeString
    let sasl_password ← requiredField kvs "sasl_password" deserializeString
    some ⟨security_protocol, ssl_ca_location, sasl_mechanism,
      sasl_username, sasl_password⟩
  | _ => none

/-- Deserialization of `SecurityConfig` (externally tagged enum): a
singleton mapping whose key names the variant. -/
def SecurityConfig.deserialize (v : Value) : Option SecurityConfig :=
  match v with
  | Value.map [(tag, content)] =>
    if tag = "Sasl" then (SaslConfig.deserialize content).map SecurityConfig.Sasl
    else none
  | _ => none

/-- Deserialization of `KafkaProducerConfig`: `topic`, `brokers` and
`attempt_interval_ms` required; the `Option` fields absent-as-`None`;
unknown fields ignored. -/
def KafkaProducerConfig.deserialize (v : Value) : Option KafkaProducerConfig :=
  match v with
  | Value.map kvs => do
    let topic ← requiredField kvs "topic" deserializeString
    let brokers ← requiredField kvs "brokers" deserializeString
    let message_timeout_ms ← fieldWithDefault kvs "message_timeout_ms"
      (deserializeOption (deserializeUint 32)) none
    let message_max_size ← fieldWithDefault kvs "message_max_size"
      (deserializeOption (deserializeUint 64)) none
    let attempt_interval_ms ← requiredField kvs "attempt_interval_ms"
      (deserializeUint 64)
    let security_config ← fieldWithDefault kvs "security_config"
      (deserializeOption SecurityConfig.deserialize) none
    some ⟨topic, brokers, message_timeout_ms, message_max_size,
      attempt_interval_ms, security_config⟩
  | _ => none

/-- Deserialization of `KafkaConfig` (`#[serde(default)]`, no
`deny_unknown_fields`). -/
def KafkaConfig.deserialize (v : Value) : Option KafkaConfig :=
  match v with
  | Value.map kvs => do
    let p ← fieldWithDefault kvs "raw_transaction_producer"
      KafkaProducerConfig.deserialize KafkaProducerConfig.default
    some ⟨p⟩
  | _ => none

/-- Deserialization of `NodeConfig`
(`#[serde(default, deny_unknown_fields)]`): any key outside the declared
schema is an error; missing fields come from `NodeConfig.default`. -/
def NodeConfig.deserialize (dmem : Nat) (v : Value) : Option NodeConfig :=
  match v with
  | Value.map kvs =>
    if kvs.all (fun p => nodeConfigFields.contains p.1) then do
      let d := NodeConfig.default dmem
      let adnl_public_ip ← fieldWithDefault kvs "adnl_public_ip"
        (deserializeOption Ipv4Addr.deserialize) d.adnl_public_ip
      let adnl_port ← fieldWithDefault kvs "adnl_port"
        (deserializeUint 16) d.adnl_port
      let db_path ← fieldWithDefault kvs "db_path"
        deserializeString d.db_path
      let temp_keys_path ← fieldWithDefault kvs "temp_keys_path"
        deserializeString d.temp_keys_path
      let max_db_memory_usage ← fieldWithDefault kvs "max_db_memory_usage"
        (deserializeUint 64) d.max_db_memory_usage
      let parallel_archive_downloads ← fieldWithDefault kvs
        "parallel_archive_downloads" (deserializeUint 32)
        d.parallel_archive_downloads
      let start_from ← fieldWithDefault kvs "start_from"
        (deserializeOption (deserializeUint 32)) d.start_from
      some ⟨adnl_public_ip, adnl_port, db_path, temp_keys_path,
        max_db_memory_usage, parallel_archive_downloads, start_from⟩
    else none
  | _ => none

/-- Deserialization of `AppConfig`: `kafka_settings` required;
`rpc_config` and `node_settings` fall back to `#[serde(default)]`;
`logger_settings` falls back to `default_logger_settings`; unknown
fields ignored. -/
def AppConfig.deserialize (dmem : Nat) (v : Value) : Option AppConfig :=
  match v with
  | Value.map kvs => do
    let rpc_config ← fieldWithDefault kvs "rpc_config"
      (deserializeOption StatesConfig.deserialize) none
    let node_settings ← fieldWithDefault kvs "node_settings"
      (NodeConfig.deserialize dmem) (NodeConfig.default dmem)
    let kafka_settings ← requiredField kvs "kafka_settings"
      KafkaConfig.deserialize
    let logger_settings ← fieldWithDefault kvs "logger_settings"
      (fun v => some v) default_logger_settings
    some ⟨rpc_config, node_settings, kafka_settings, logger_settings⟩
  | _ => none

/-- A sample SASL security configuration with nonempty strings. -/
def saslSample : SaslConfig :=
  ⟨"SASL_SSL", "/etc/ssl/ca.pem", "PLAIN", "producer", "secret"⟩

/-- A sample producer configuration using the SASL variant. -/
def kafkaProducerSample : KafkaProducerConfig where
  topic := "transactions"
  brokers := "kafka1:9092"
  message_timeout_ms := some 100
  message_max_size := some 1000000
  attempt_interval_ms := 100
  security_config := some (SecurityConfig.Sasl saslSample)

/-- A sample full declarative configuration exercising every section,
including the SASL variant. -/
def appConfigSample : AppConfig where
  rpc_config := some ⟨⟨⟨0, 0, 0, 0⟩, 8081⟩⟩
  node_settings := cfgExplicitIp
  kafka_settings := ⟨kafkaProducerSample⟩
  logger_settings := Value.null

/-! Inversion and trace lemmas about `build_indexer_config`. -/

/-- On success, `finishBuild` returns exactly the record assembled at the
end of `build_indexer_config`, for some keys delivered by the key store. -/
theorem finishBuild_ok_inv (self : NodeConfig) (env : Env) (ip : Ipv4Addr)
    (tr0 : List Effect) (res : ton_indexer.NodeConfig) (tr : List Effect)
    (h : self.finishBuild env ip tr0 = (Except.ok res, tr)) :
    ∃ keys, res =
      { ip_address := { ip := ip, port := self.adnl_port }
        adnl_keys := keys
        rocks_db_path := Path.join self.db_path "rocksdb"
        file_db_path := Path.join self.db_path "files"
        state_gc_options := none
        blocks_gc_options := none
        shard_state_cache_options := some ()
        archives_enabled := false
        old_blocks_policy := match self.start_from with
          | none => OldBlocksPolicy.ignore
          | some a => OldBlocksPolicy.sync a
        max_db_memory_usage := self.max_db_memory_usage
        parallel_archive_downloads := self.parallel_archive_downloads
        adnl_options := ()
        rldp_options := ()
        dht_options := ()
        neighbours_options := ()
        overlay_shard_options := () } := by
  unfold NodeConfig.finishBuild at h
  cases hkeys : env.temp_keys_load self.temp_keys_path false with
  | error e => simp only [hkeys] at h; simp at h
  | ok temp_keys =>
    simp only [hkeys] at h
    cases hdir : env.create_dir_all self.db_path with
    | error e => simp only [hdir] at h; simp at h
    | ok u =>
      simp only [hdir, Prod.mk.injEq, Except.ok.injEq] at h
      exact ⟨temp_keys, h.1.symm⟩

/-- Whatever happens, `finishBuild` only appends key-store and filesystem
events to the incoming trace; in particular no resolver query. -/
theorem finishBuild_trace (self : NodeConfig) (env : Env) (ip : Ipv4Addr)
    (tr0 : List Effect) :
    ∃ t, (self.finishBuild env ip tr0).2 = tr0 ++ t ∧
      Effect.resolverQuery ∉ t := by
  unfold NodeConfig.finishBuild
  cases hkeys : env.temp_keys_load self.temp_keys_path false with
  | error e =>
    exact ⟨[Effect.keysLoad self.temp_keys_path false], by simp [hkeys], by simp⟩
  | ok temp_keys =>
    cases hdir : env.create_dir_all self.db_path with
    | error e =>
      refine ⟨[Effect.keysLoad self.temp_keys_path false,
        Effect.createDirAll self.db_path], ?_, by simp⟩
      simp [hkeys, hdir]
    | ok u =>
      refine ⟨[Effect.keysLoad self.temp_keys_path false,
        Effect.createDirAll self.db_path], ?_, by simp⟩
      simp [hkeys, hdir]

/-- On success, `build_indexer_config` returns the assembled record for
some determined ip and loaded keys. -/
theorem build_ok_inv (cfg : NodeConfig) (env : Env)
    (res : ton_indexer.NodeConfig) (tr : List Effect)
    (h : cfg.build_indexer_config env = (Except.ok res, tr)) :
    ∃ ip keys, res =
      { ip_address := { ip := ip, port := cfg.adnl_port }
        adnl_keys := keys
        rocks_db_path := Path.join cfg.db_path "rocksdb"
        file_db_path := Path.join cfg.db_path "files"
        state_gc_options := none
        blocks_gc_options := none
        shard_state_cache_options := some ()
        archives_enabled := false
        old_blocks_policy := match cfg.start_from with
          | none => OldBlocksPolicy.ignore
          | some a => OldBlocksPolicy.sync a
        max_db_memory_usage := cfg.max_db_memory_usage
        parallel_archive_downloads := cfg.parallel_archive_downloads
        adnl_options := ()
        rldp_options := ()
        dht_options := ()
        neighbours_options := ()
        overlay_shard_options := () } := by
  unfold NodeConfig.build_indexer_config at h
  cases hip : cfg.adnl_public_ip with
  | some a =>
    simp only [hip] at h
    obtain ⟨keys, hres⟩ := finishBuild_ok_inv _ _ _ _ _ _ h
    exact ⟨a, keys, hres⟩
  | none =>
    simp only [hip] at h
    cases hpub : env.public_ip_addr_v4 with
    | some a =>
      simp only [hpub] at h
      obtain ⟨keys, hres⟩ := finishBuild_ok_inv _ _ _ _ _ _ h
      exact ⟨a, keys, hres⟩
    | none => simp only [hpub] at h; simp at h

/-! Claim theorems. -/

/-- C1: a successful `build_indexer_config` maps `start_from = None` to
`OldBlocksPolicy::Ignore` and `start_from = Some(n)` to
`OldBlocksPolicy::Sync { from_seqno: n }` with `n` preserved exactly;
as the two equivalences exhaust `Option`, there is no third case. -/
theorem build_indexer_config_old_blocks_policy
    (cfg : NodeConfig) (env : Env) (res : ton_indexer.NodeConfig)
    (tr : List Effect)
    (h : cfg.build_indexer_config env = (Except.ok res, tr)) :
    (res.old_blocks_policy = OldBlocksPolicy.ignore ↔ cfg.start_from = none) ∧
    (∀ n, res.old_blocks_policy = OldBlocksPolicy.sync n ↔
      cfg.start_from = some n) := by
  obtain ⟨ip, keys, hres⟩ := build_ok_inv cfg env res tr h
  subst hres
  cases hsf : cfg.start_from <;> simp [hsf]

/-- C1 witness: the theorem applied to a concrete successful run. -/
theorem build_indexer_config_old_blocks_policy_witness :
    (resExplicitIp.old_blocks_policy = OldBlocksPolicy.ignore ↔
      cfgExplicitIp.start_from = none) ∧
    (∀ n, resExplicitIp.old_blocks_policy = OldBlocksPolicy.sync n ↔
      cfgExplicitIp.start_from = some n) :=
  build_indexer_config_old_blocks_policy cfgExplicitIp envOk resExplicitIp
    trExplicitIp (by rfl)

/-- C2: with no explicit `adnl_public_ip` and a resolver that finds no
address, `build_indexer_config` fails with `ConfigError::PublicIpNotFound`
and its effect trace holds only the resolver query: no key-store load and
no directory creation happened. -/
theorem build_indexer_config_fail_fast
    (cfg : NodeConfig) (env : Env)
    (h1 : cfg.adnl_public_ip = none) (h2 : env.public_ip_addr_v4 = none) :
    cfg.build_indexer_config env =
      (Except.error BuildError.publicIpNotFound, [Effect.resolverQuery]) ∧
    (∀ p f, Effect.keysLoad p f ∉ (cfg.build_indexer_config env).2) ∧
    (∀ p, Effect.createDirAll p ∉ (cfg.build_indexer_config env).2) := by
  have hb : cfg.build_indexer_config env =
      (Except.error BuildError.publicIpNotFound, [Effect.resolverQuery]) := by
    unfold NodeConfig.build_indexer_config
    rw [h1, h2]
  refine ⟨hb, ?_, ?_⟩ <;> rw [hb] <;> simp

/-- C2 witness: the theorem applied to a concrete input. -/
theorem build_indexer_config_fail_fast_witness :
    cfgAutoIp.build_indexer_config envNoIp =
      (Except.error BuildError.publicIpNotFound, [Effect.resolverQuery]) :=
  (build_indexer_config_fail_fast cfgAutoIp envNoIp rfl rfl).1

/-- C3: with an explicit `adnl_public_ip = Some(a)` the resolver is never
queried and `a` lands verbatim in the resolved socket address; with
`adnl_public_ip = None` the resolver is queried exactly once. -/
theorem build_indexer_config_resolver_usage
    (cfg : NodeConfig) (env : Env) :
    (∀ a, cfg.adnl_public_ip = some a →
      Effect.resolverQuery ∉ (cfg.build_indexer_config env).2 ∧
      (∀ res tr, cfg.build_indexer_config env = (Except.ok res, tr) →
        res.ip_address.ip = a)) ∧
    (cfg.adnl_public_ip = none →
      ((cfg.build_indexer_config env).2.count Effect.resolverQuery = 1)) := by
  constructor
  · intro a hip
    have hb : cfg.build_indexer_config env = cfg.finishBuild env a [] := by
      unfold NodeConfig.build_indexer_config
      rw [hip]
    constructor
    · rw [hb]
      obtain ⟨t, ht, hmem⟩ := finishBuild_trace cfg env a []
      rw [ht]
      simpa using hmem
    · intro res tr h
      rw [hb] at h
      obtain ⟨keys, hres⟩ := finishBuild_ok_inv _ _ _ _ _ _ h
      subst hres
      rfl
  · intro hip
    cases hpub : env.public_ip_addr_v4 with
    | some a =>
      have hb : cfg.build_indexer_config env =
          cfg.finishBuild env a [Effect.resolverQuery] := by
        unfold NodeConfig.build_indexer_config
        rw [hip, hpub]
      rw [hb]
      obtain ⟨t, ht, hmem⟩ := finishBuild_trace cfg env a [Effect.resolverQuery]
      rw [ht, List.count_append]
      rw [List.count_eq_zero.mpr hmem]
      simp
    | none =>
      have hb : cfg.build_indexer_config env =
          (Except.error BuildError.publicIpNotFound, [Effect.resolverQuery]) := by
        unfold NodeConfig.build_indexer_config
        rw [hip, hpub]
      rw [hb]
      simp

/-- C3 witness: the theorem applied to concrete inputs on both sides of
the `adnl_public_ip` split. -/
theorem build_indexer_config_resolver_usage_witness :
    Effect.resolverQuery ∉ (cfgExplicitIp.build_indexer_config envOk).2 ∧
    ((cfgAutoIp.build_indexer_config envOk).2.count Effect.resolverQuery = 1) :=
  ⟨((build_indexer_config_resolver_usage cfgExplicitIp envOk).1
      ⟨127, 0, 0, 1⟩ rfl).1,
    (build_indexer_config_resolver_usage cfgAutoIp envOk).2 rfl⟩

/-- C4: every successfully resolved configuration has state GC and block
GC disabled, whatever the input was. -/
theorem build_indexer_config_gc_disabled
    (cfg : NodeConfig) (env : Env) (res : ton_indexer.NodeConfig)
    (tr : List Effect)
    (h : cfg.build_indexer_config env = (Except.ok res, tr)) :
    res.state_gc_options = none ∧ res.blocks_gc_options = none := by
  obtain ⟨ip, keys, hres⟩ := build_ok_inv cfg env res tr h
  subst hres
  exact ⟨rfl, rfl⟩

/-- C4 witness: the theorem applied to a concrete successful run. -/
theorem build_indexer_config_gc_disabled_witness :
    resExplicitIp.state_gc_options = none ∧
    resExplicitIp.blocks_gc_options = none :=
  build_indexer_config_gc_disabled cfgExplicitIp envOk resExplicitIp
    trExplicitIp (by rfl)

/-- C5: for a database directory `X` that is nonempty and has no trailing
separator, the resolved paths are literally `X ++ "/rocksdb"` and
`X ++ "/files"`; the two segment names are fixed in the source. -/
theorem build_indexer_config_storage_paths
    (cfg : NodeConfig) (env : Env) (res : ton_indexer.NodeConfig)
    (tr : List Effect)
    (h : cfg.build_indexer_config env = (Except.ok res, tr))
    (h1 : cfg.db_path ≠ "") (h2 : Path.endsWithSep cfg.db_path = false) :
    res.rocks_db_path = cfg.db_path ++ "/rocksdb" ∧
    res.file_db_path = cfg.db_path ++ "/files" := by
  have hjoin : ∀ child : String, Path.isAbsolute child = false →
      Path.join cfg.db_path child = cfg.db_path ++ ("/" ++ child) := by
    intro child hc
    unfold Path.join
    rw [if_neg (by simp [hc]), if_neg h1, if_neg (by simp [h2])]
  obtain ⟨ip, keys, hres⟩ := build_ok_inv cfg env res tr h
  subst hres
  constructor
  · show Path.join cfg.db_path "rocksdb" = cfg.db_path ++ "/rocksdb"
    rw [hjoin "rocksdb" (by decide)]
    exact congrArg (fun s => cfg.db_path ++ s) (by decide)
  · show Path.join cfg.db_path "files" = cfg.db_path ++ "/files"
    rw [hjoin "files" (by decide)]
    exact congrArg (fun s => cfg.db_path ++ s) (by decide)

/-- C5 witness: the theorem applied to a concrete successful run with
`db_path = "db"`. -/
theorem build_indexer_config_storage_paths_witness :
    resExplicitIp.rocks_db_path = "db" ++ "/rocksdb" ∧
    resExplicitIp.file_db_path = "db" ++ "/files" :=
  build_indexer_config_storage_paths cfgExplicitIp envOk resExplicitIp
    trExplicitIp (by rfl) (by decide) (by decide)

/-- C8: the `Default` instance of `NodeConfig` has no explicit public ip,
port 30303, `db_path = "db"`, `temp_keys_path = "adnl-keys.json"`,
16 parallel archive downloads and no `start_from`, for any value of the
external memory default. -/
theorem node_config_default_values (dmem : Nat) :
    (NodeConfig.default dmem).adnl_public_ip = none ∧
    (NodeConfig.default dmem).adnl_port = 30303 ∧
    (NodeConfig.default dmem).db_path = "db" ∧
    (NodeConfig.default dmem).temp_keys_path = "adnl-keys.json" ∧
    (NodeConfig.default dmem).parallel_archive_downloads = 16 ∧
    (NodeConfig.default dmem).start_from = none :=
  ⟨rfl, rfl, rfl, rfl, rfl, rfl⟩


set_option maxRecDepth 100000 in
/-- C10: `default_logger_settings` never panics — parsing the built-in
constant succeeds — and, being a pure function of a constant, every call
returns this same value, spelled out below. -/
theorem default_logger_settings_total :
    yamlFromStr DEFAULT_LOG4RS_SETTINGS = some default_logger_settings ∧
    default_logger_settings = Value.map
      [("appenders", Value.map
        [("stdout", Value.map
          [("kind", Value.str "console"),
           ("encoder", Value.map
             [("pattern", Value.str "\x7bd(%Y-%m-%d %H:%M:%S %Z)(utc)\x7d - \x7bh(\x7bl\x7d)\x7d \x7bM\x7d = \x7bm\x7d \x7bn\x7d")])])]),
       ("root", Value.map
         [("level", Value.str "error"),
          ("appenders", Value.seq [Value.str "stdout"])]),
       ("loggers", Value.map
         [("ton_kafka_producer", Value.map
           [("level", Value.str "info"),
            ("appenders", Value.seq [Value.str "stdout"]),
            ("additive", Value.bool false)])])] :=
  ⟨rfl, rfl⟩


/-! Roundtrip lemmas for the scalar displays used by serde. -/

/-- Reading back the character of a decimal digit. -/
theorem charToDigit_digitChar (d : Nat) (h : d < 10) :
    charToDigit (digitChar d) = some d := by
  interval_cases d <;> decide

/-- Decimal digit characters are not the separators used around them. -/
theorem digitChar_ne_sep (d : Nat) (h : d < 10) :
    digitChar d ≠ '.' ∧ digitChar d ≠ ':' := by
  interval_cases d <;> exact ⟨by decide, by decide⟩

/-- Every character of a decimal representation is a digit character. -/
theorem mem_natToChars (n : Nat) (ch : Char) (h : ch ∈ natToChars n) :
    ∃ d, d < 10 ∧ ch = digitChar d := by
  unfold natToChars at h
  by_cases h0 : n = 0
  · rw [if_pos h0] at h
    simp only [List.mem_singleton] at h
    exact ⟨0, by norm_num, by rw [h]; decide⟩
  · rw [if_neg h0] at h
    simp only [List.mem_reverse, List.mem_map] at h
    obtain ⟨d, hd, hch⟩ := h
    exact ⟨d, Nat.digits_lt_base (by norm_num) hd, hch.symm⟩

/-- The dot never occurs in a decimal representation. -/
theorem dot_not_mem_natToChars (n : Nat) : '.' ∉ natToChars n := by
  intro hm
  obtain ⟨d, hd, hch⟩ := mem_natToChars n _ hm
  exact (digitChar_ne_sep d hd).1 hch.symm

/-- The colon never occurs in a decimal representation. -/
theorem colon_not_mem_natToChars (n : Nat) : ':' ∉ natToChars n := by
  intro hm
  obtain ⟨d, hd, hch⟩ := mem_natToChars n _ hm
  exact (digitChar_ne_sep d hd).2 hch.symm

/-- `mapM` undoes `map digitChar` on digit lists. -/
theorem mapM_charToDigit_map_digitChar (l : List Nat) (h : ∀ d ∈ l, d < 10) :
    (l.map digitChar).mapM charToDigit = some l := by
  induction l with
  | nil => rfl
  | cons d l ih =>
    rw [List.map_cons, List.mapM_cons, charToDigit_digitChar d (h d (by simp)),
      ih (fun x hx => h x (by simp [hx]))]
    rfl

/-- Parsing a decimal representation returns the original natural. -/
theorem decToNat_natToChars (n : Nat) : decToNat (natToChars n) = some n := by
  by_cases h0 : n = 0
  · subst h0; rfl
  · unfold decToNat natToChars
    rw [if_neg h0, if_neg (by
      simp [Nat.digits_ne_nil_iff_ne_zero.mpr h0])]
    rw [← List.map_reverse,
      mapM_charToDigit_map_digitChar _ (fun d hd =>
        Nat.digits_lt_base (by norm_num) (List.mem_reverse.mp hd))]
    simp [Nat.ofDigits_digits]

/-- `splitOnChar` never returns the empty list of chunks. -/
theorem splitOnChar_ne_nil (c : Char) (l : List Char) :
    splitOnChar c l ≠ [] := by
  induction l with
  | nil => simp [splitOnChar]
  | cons x xs ih =>
    unfold splitOnChar
    cases hs : splitOnChar c xs with
    | nil => simp
    | cons y ys => by_cases hx : x = c <;> simp [hx]

/-- Splitting a chunk free of the separator returns just that chunk. -/
theorem splitOnChar_of_not_mem (c : Char) (l : List Char) (h : c ∉ l) :
    splitOnChar c l = [l] := by
  induction l with
  | nil => rfl
  | cons x xs ih =>
    have hx : x ≠ c := by
      rintro rfl; exact h (List.mem_cons_self x xs)
    have hxs : c ∉ xs := fun hm => h (List.mem_cons_of_mem _ hm)
    unfold splitOnChar
    rw [ih hxs]
    simp [hx]

/-- The one-step unfolding of `splitOnChar` on a cons cell. -/
theorem splitOnChar_cons (c x : Char) (xs : List Char) :
    splitOnChar c (x :: xs) =
      match splitOnChar c xs with
      | [] => [[]]
      | y :: ys => if x = c then [] :: y :: ys else (x :: y) :: ys := rfl

/-- Splitting peels off a leading separator-free chunk. -/
theorem splitOnChar_append (c : Char) (l r : List Char) (h : c ∉ l) :
    splitOnChar c (l ++ c :: r) = l :: splitOnChar c r := by
  induction l with
  | nil =>
    obtain ⟨y, ys, hys⟩ := List.exists_cons_of_ne_nil (splitOnChar_ne_nil c r)
    simp only [List.nil_append]
    rw [splitOnChar_cons, hys]
    simp
  | cons x xs ih =>
    have hx : x ≠ c := fun hxc => h (by simp [hxc])
    have hxs : c ∉ xs := fun hm => h (List.mem_cons_of_mem _ hm)
    simp only [List.cons_append]
    rw [splitOnChar_cons, ih hxs]
    simp [hx]

/-- `FromStr` undoes `Display` for IPv4 addresses. -/
theorem ipv4_parse_toDisplay (ip : Ipv4Addr) (h : ip.wf) :
    Ipv4Addr.parse ip.toDisplay = some ip := by
  obtain ⟨ha, hb, hc, hd⟩ := h
  unfold Ipv4Addr.parse
  have hdata : (Ipv4Addr.toDisplay ip).data =
      natToChars ip.a ++ '.' :: (natToChars ip.b ++ '.' ::
        (natToChars ip.c ++ '.' :: natToChars ip.d)) := rfl
  rw [hdata,
    splitOnChar_append '.' _ _ (dot_not_mem_natToChars ip.a),
    splitOnChar_append '.' _ _ (dot_not_mem_natToChars ip.b),
    splitOnChar_append '.' _ _ (dot_not_mem_natToChars ip.c),
    splitOnChar_of_not_mem '.' _ (dot_not_mem_natToChars ip.d)]
  simp [decToNat_natToChars, ha, hb, hc, hd]

/-- The colon never occurs in an IPv4 display. -/
theorem colon_not_mem_ipv4Display (ip : Ipv4Addr) :
    ':' ∉ (Ipv4Addr.toDisplay ip).data := by
  intro hm
  have hdata : (Ipv4Addr.toDisplay ip).data =
      natToChars ip.a ++ '.' :: (natToChars ip.b ++ '.' ::
        (natToChars ip.c ++ '.' :: natToChars ip.d)) := rfl
  rw [hdata] at hm
  simp only [List.mem_append, List.mem_cons] at hm
  rcases hm with hm | hm | hm | hm | hm | hm | hm
  · exact colon_not_mem_natToChars ip.a hm
  · exact absurd hm (by decide)
  · exact colon_not_mem_natToChars ip.b hm
  · exact absurd hm (by decide)
  · exact colon_not_mem_natToChars ip.c hm
  · exact absurd hm (by decide)
  · exact colon_not_mem_natToChars ip.d hm

/-- `FromStr` undoes `Display` for V4 socket addresses. -/
theorem socketAddr_parse_toDisplay (a : SocketAddr) (h : a.wf) :
    SocketAddr.parse a.toDisplay = some a := by
  obtain ⟨hip, hport⟩ := h
  unfold SocketAddr.parse
  have hdata : (SocketAddr.toDisplay a).data =
      (Ipv4Addr.toDisplay a.ip).data ++ ':' :: natToChars a.port := rfl
  rw [hdata,
    splitOnChar_append ':' _ _ (colon_not_mem_ipv4Display a.ip),
    splitOnChar_of_not_mem ':' _ (colon_not_mem_natToChars a.port)]
  have hmk : String.mk (Ipv4Addr.toDisplay a.ip).data = Ipv4Addr.toDisplay a.ip := rfl
  have hport' : a.port < 65536 := by
    have he : (2 : Nat) ^ 16 = 65536 := by norm_num
    exact he ▸ hport
  simp [hmk, ipv4_parse_toDisplay a.ip hip, decToNat_natToChars, hport']


/-! serde roundtrip lemmas. -/

/-- `deserializeOption` on a value that is not null. -/
theorem deserializeOption_of_ne_null {α : Type} (f : Value → Option α)
    (v : Value) (h : v ≠ Value.null) :
    deserializeOption f v = (f v).map some := by
  cases v with
  | null => exact absurd rfl h
  | bool b => rfl
  | num n => rfl
  | str s => rfl
  | seq xs => rfl
  | map kvs => rfl

/-- An `Option` field roundtrips when its payload does and never
serializes to null. -/
theorem deserializeOption_serializeOption {α : Type} (f : Value → Option α)
    (g : α → Value) (o : Option α) (hnn : ∀ x, g x ≠ Value.null)
    (hrt : ∀ x, f (g x) = some x) :
    deserializeOption f (serializeOption g o) = some o := by
  cases o with
  | none => rfl
  | some x =>
    show deserializeOption f (g x) = some (some x)
    rw [deserializeOption_of_ne_null f _ (hnn x), hrt x]
    rfl

/-- Unsigned integers in range roundtrip. -/
theorem deserializeUint_num (w n : Nat) (h : n < 2 ^ w) :
    deserializeUint w (Value.num n) = some n := by
  simp [deserializeUint, h]

/-- `SaslConfig` roundtrips. -/
theorem saslConfig_roundtrip (c : SaslConfig) :
    SaslConfig.deserialize (SaslConfig.serialize c) = some c := rfl

/-- `SecurityConfig` roundtrips. -/
theorem securityConfig_roundtrip (s : SecurityConfig) :
    SecurityConfig.deserialize (SecurityConfig.serialize s) = some s := by
  cases s with
  | Sasl c => rfl

/-- `StatesConfig` roundtrips on in-range addresses. -/
theorem statesConfig_roundtrip (c : StatesConfig) (h : c.address.wf) :
    StatesConfig.deserialize (StatesConfig.serialize c) = some c := by
  have hb : StatesConfig.deserialize (StatesConfig.serialize c) =
      (SocketAddr.parse c.address.toDisplay).bind
        (fun address => some ⟨address⟩) := rfl
  rw [hb, socketAddr_parse_toDisplay c.address h]
  rfl

/-- Lookup ignores an appended entry with a different key. -/
theorem lookup_append_not_key {kvs : List (String × Value)} {k : String}
    {v : Value} {name : String} (h : name ≠ k) :
    Value.lookup (kvs ++ [(k, v)]) name = Value.lookup kvs name := by
  unfold Value.lookup
  induction kvs with
  | nil =>
    simp only [List.nil_append, List.find?]
    have hb : (k == name) = false := by
      simp [Ne.symm h]
    simp [hb]
  | cons p ps ih =>
    simp only [List.cons_append, List.find?]
    cases hp : (p.1 == name) with
    | true => simp
    | false => simpa using ih

/-- Lookup of a key absent from the document. -/
theorem lookup_eq_none_of_not_mem {kvs : List (String × Value)} {name : String}
    (h : name ∉ kvs.map Prod.fst) : Value.lookup kvs name = none := by
  unfold Value.lookup
  rw [List.find?_eq_none.mpr]
  · rfl
  · intro p hp hb
    exact h (List.mem_map.mpr ⟨p, hp, by simpa using hb⟩)

/-- Defaulted fields ignore an appended foreign entry. -/
theorem fieldWithDefault_append {α : Type} {kvs : List (String × Value)}
    {k : String} {v : Value} {name : String} {f : Value → Option α} {d : α}
    (h : name ≠ k) :
    fieldWithDefault (kvs ++ [(k, v)]) name f d = fieldWithDefault kvs name f d := by
  unfold fieldWithDefault
  rw [lookup_append_not_key h]

/-- Required fields ignore an appended foreign entry. -/
theorem requiredField_append {α : Type} {kvs : List (String × Value)}
    {k : String} {v : Value} {name : String} {f : Value → Option α}
    (h : name ≠ k) :
    requiredField (kvs ++ [(k, v)]) name f = requiredField kvs name f := by
  unfold requiredField
  rw [lookup_append_not_key h]

/-- `KafkaProducerConfig` roundtrips on in-range values. -/
theorem kafkaProducerConfig_roundtrip (c : KafkaProducerConfig) (h : c.wf) :
    KafkaProducerConfig.deserialize (KafkaProducerConfig.serialize c) = some c := by
  rcases c with ⟨t, b, mt, ms, ai, sec⟩
  obtain ⟨h1, h2, h3⟩ := h
  have hmt : deserializeOption (deserializeUint 32) (serializeOption Value.num mt) =
      some mt := by
    cases mt with
    | none => rfl
    | some n =>
      rw [show serializeOption Value.num (some n) = Value.num n from rfl,
        deserializeOption_of_ne_null _ _ (by simp), deserializeUint_num 32 n h1]
      rfl
  have hms : deserializeOption (deserializeUint 64) (serializeOption Value.num ms) =
      some ms := by
    cases ms with
    | none => rfl
    | some n =>
      rw [show serializeOption Value.num (some n) = Value.num n from rfl,
        deserializeOption_of_ne_null _ _ (by simp), deserializeUint_num 64 n h2]
      rfl
  have hsec : deserializeOption SecurityConfig.deserialize
      (serializeOption SecurityConfig.serialize sec) = some sec := by
    refine deserializeOption_serializeOption _ _ sec ?_ securityConfig_roundtrip
    intro x
    cases x with
    | Sasl sc => simp [SecurityConfig.serialize]
  show (Option.bind (deserializeOption (deserializeUint 32)
      (serializeOption Value.num mt)) fun message_timeout_ms =>
    Option.bind (deserializeOption (deserializeUint 64)
      (serializeOption Value.num ms)) fun message_max_size =>
    Option.bind (deserializeUint 64 (Value.num ai)) fun attempt_interval_ms =>
    Option.bind (deserializeOption SecurityConfig.deserialize
      (serializeOption SecurityConfig.serialize sec)) fun security_config =>
    some (KafkaProducerConfig.mk t b message_timeout_ms message_max_size
      attempt_interval_ms security_config)) =
    some (KafkaProducerConfig.mk t b mt ms ai sec)
  rw [hmt, hms, hsec, deserializeUint_num 64 ai h3]
  rfl

/-- `KafkaConfig` roundtrips on in-range values. -/
theorem kafkaConfig_roundtrip (c : KafkaConfig)
    (h : c.raw_transaction_producer.wf) :
    KafkaConfig.deserialize (KafkaConfig.serialize c) = some c := by
  rcases c with ⟨p⟩
  have hb : KafkaConfig.deserialize (KafkaConfig.serialize ⟨p⟩) =
      (KafkaProducerConfig.deserialize (KafkaProducerConfig.serialize p)).bind
        (fun q => some ⟨q⟩) := rfl
  rw [hb, kafkaProducerConfig_roundtrip p h]
  rfl

/-- `NodeConfig` roundtrips on in-range values. -/
theorem nodeConfig_roundtrip (dmem : Nat) (c : NodeConfig) (h : c.wf) :
    NodeConfig.deserialize dmem (NodeConfig.serialize c) = some c := by
  rcases c with ⟨aip, port, db, tkp, mdb, pad, sf⟩
  obtain ⟨h1, h2, h3, h4, h5⟩ := h
  have hip : deserializeOption Ipv4Addr.deserialize
      (serializeOption Ipv4Addr.serialize aip) = some aip := by
    cases aip with
    | none => rfl
    | some ip =>
      rw [show serializeOption Ipv4Addr.serialize (some ip) =
          Value.str ip.toDisplay from rfl,
        deserializeOption_of_ne_null _ _ (by simp),
        show Ipv4Addr.deserialize (Value.str ip.toDisplay) =
          Ipv4Addr.parse ip.toDisplay from rfl,
        ipv4_parse_toDisplay ip h1]
      rfl
  have hsf : deserializeOption (deserializeUint 32)
      (serializeOption Value.num sf) = some sf := by
    cases sf with
    | none => rfl
    | some n =>
      rw [show serializeOption Value.num (some n) = Value.num n from rfl,
        deserializeOption_of_ne_null _ _ (by simp), deserializeUint_num 32 n h5]
      rfl
  show (Option.bind (deserializeOption Ipv4Addr.deserialize
      (serializeOption Ipv4Addr.serialize aip)) fun adnl_public_ip =>
    Option.bind (deserializeUint 16 (Value.num port)) fun adnl_port =>
    Option.bind (deserializeUint 64 (Value.num mdb)) fun max_db_memory_usage =>
    Option.bind (deserializeUint 32 (Value.num pad)) fun parallel_archive_downloads =>
    Option.bind (deserializeOption (deserializeUint 32)
      (serializeOption Value.num sf)) fun start_from =>
    some (NodeConfig.mk adnl_public_ip adnl_port db tkp max_db_memory_usage
      parallel_archive_downloads start_from)) =
    some (NodeConfig.mk aip port db tkp mdb pad sf)
  rw [hip, hsf, deserializeUint_num 16 port h2, deserializeUint_num 64 mdb h3,
    deserializeUint_num 32 pad h4]
  rfl

/-- `AppConfig` roundtrips on in-range values. -/
theorem appConfig_roundtrip (dmem : Nat) (c : AppConfig) (h : c.wf) :
    AppConfig.deserialize dmem (AppConfig.serialize c) = some c := by
  rcases c with ⟨rpc, node, kafka, logv⟩
  obtain ⟨h1, h2, h3⟩ := h
  have hrpc : deserializeOption StatesConfig.deserialize
      (serializeOption StatesConfig.serialize rpc) = some rpc := by
    cases rpc with
    | none => rfl
    | some st =>
      rw [show serializeOption StatesConfig.serialize (some st) =
          StatesConfig.serialize st from rfl,
        deserializeOption_of_ne_null _ _ (by simp [StatesConfig.serialize]),
        statesConfig_roundtrip st h1]
      rfl
  show (Option.bind (deserializeOption StatesConfig.deserialize
      (serializeOption StatesConfig.serialize rpc)) fun rpc_config =>
    Option.bind (NodeConfig.deserialize dmem (NodeConfig.serialize node))
      fun node_settings =>
    Option.bind (KafkaConfig.deserialize (KafkaConfig.serialize kafka))
      fun kafka_settings =>
    some (AppConfig.mk rpc_config node_settings kafka_settings logv)) =
      some (AppConfig.mk rpc node kafka logv)
  rw [hrpc, nodeConfig_roundtrip dmem node h2, kafkaConfig_roundtrip kafka h3]
  rfl

/-- C6: the node-settings section (`deny_unknown_fields`) rejects any
document carrying an undeclared field name, while the root aggregate and
the two message-queue sections silently ignore an unrecognized entry. -/
theorem schema_strictness_asymmetry (dmem : Nat)
    (kvs : List (String × Value)) (k : String) (v : Value) :
    (k ∈ kvs.map Prod.fst → k ∉ nodeConfigFields →
      NodeConfig.deserialize dmem (Value.map kvs) = none) ∧
    (k ∉ appConfigFields →
      AppConfig.deserialize dmem (Value.map (kvs ++ [(k, v)])) =
        AppConfig.deserialize dmem (Value.map kvs)) ∧
    (k ∉ kafkaConfigFields →
      KafkaConfig.deserialize (Value.map (kvs ++ [(k, v)])) =
        KafkaConfig.deserialize (Value.map kvs)) ∧
    (k ∉ kafkaProducerConfigFields →
      KafkaProducerConfig.deserialize (Value.map (kvs ++ [(k, v)])) =
        KafkaProducerConfig.deserialize (Value.map kvs)) := by
  refine ⟨?_, ?_, ?_, ?_⟩
  · intro hk hnot
    have hcond : ¬ (kvs.all (fun p => nodeConfigFields.contains p.1) = true) := by
      simp only [List.all_eq_true, not_forall]
      obtain ⟨p, hp, hfst⟩ := List.mem_map.mp hk
      refine ⟨p, hp, ?_⟩
      subst hfst
      simpa using hnot
    simp only [NodeConfig.deserialize]
    rw [if_neg hcond]
  · intro hk
    simp only [appConfigFields, List.mem_cons, List.not_mem_nil, or_false,
      not_or] at hk
    obtain ⟨hk1, hk2, hk3, hk4⟩ := hk
    simp only [AppConfig.deserialize]
    rw [fieldWithDefault_append (Ne.symm hk1)]
    simp only [fieldWithDefault_append (Ne.symm hk2),
      requiredField_append (Ne.symm hk3), fieldWithDefault_append (Ne.symm hk4)]
  · intro hk
    simp only [kafkaConfigFields, List.mem_cons, List.not_mem_nil, or_false,
      not_or] at hk
    simp only [KafkaConfig.deserialize]
    rw [fieldWithDefault_append (Ne.symm hk)]
  · intro hk
    simp only [kafkaProducerConfigFields, List.mem_cons, List.not_mem_nil,
      or_false, not_or] at hk
    obtain ⟨hk1, hk2, hk3, hk4, hk5, hk6⟩ := hk
    simp only [KafkaProducerConfig.deserialize]
    rw [requiredField_append (Ne.symm hk1)]
    simp only [requiredField_append (Ne.symm hk2),
      fieldWithDefault_append (Ne.symm hk3), fieldWithDefault_append (Ne.symm hk4),
      requiredField_append (Ne.symm hk5), fieldWithDefault_append (Ne.symm hk6)]

/-- C6 witness: a concrete unknown field is rejected by `NodeConfig` and
ignored by the three lenient sections. -/
theorem schema_strictness_asymmetry_witness :
    NodeConfig.deserialize 0 (Value.map [("unknown_field", Value.null)]) = none ∧
    AppConfig.deserialize 0 (Value.map ([("kafka_settings", Value.map [])] ++
      [("unknown_field", Value.null)])) =
      AppConfig.deserialize 0 (Value.map [("kafka_settings", Value.map [])]) ∧
    KafkaConfig.deserialize (Value.map ([] ++ [("unknown_field", Value.null)])) =
      KafkaConfig.deserialize (Value.map []) ∧
    KafkaProducerConfig.deserialize (Value.map ([("topic", Value.str "t"),
      ("brokers", Value.str "b"), ("attempt_interval_ms", Value.num 1)] ++
      [("unknown_field", Value.null)])) =
      KafkaProducerConfig.deserialize (Value.map [("topic", Value.str "t"),
        ("brokers", Value.str "b"), ("attempt_interval_ms", Value.num 1)]) :=
  ⟨(schema_strictness_asymmetry 0 [("unknown_field", Value.null)]
      "unknown_field" Value.null).1 (by decide) (by decide),
    (schema_strictness_asymmetry 0 [("kafka_settings", Value.map [])]
      "unknown_field" Value.null).2.1 (by decide),
    (schema_strictness_asymmetry 0 [] "unknown_field" Value.null).2.2.1
      (by decide),
    (schema_strictness_asymmetry 0 [("topic", Value.str "t"),
      ("brokers", Value.str "b"), ("attempt_interval_ms", Value.num 1)]
      "unknown_field" Value.null).2.2.2 (by decide)⟩

/-- C7: serializing any in-range full declarative configuration and
deserializing the result reproduces an equal value, SASL variant and all
its string fields included. -/
theorem app_config_serde_roundtrip (dmem : Nat) (c : AppConfig) (h : c.wf) :
    AppConfig.deserialize dmem (AppConfig.serialize c) = some c :=
  appConfig_roundtrip dmem c h

/-- C7 witness: the roundtrip at a concrete configuration carrying the
SASL security variant. -/
theorem app_config_serde_roundtrip_witness :
    AppConfig.deserialize 0 (AppConfig.serialize appConfigSample) =
      some appConfigSample :=
  app_config_serde_roundtrip 0 appConfigSample (by decide)

/-- C9: the root aggregate is constructible from per-section defaults
(no rpc section, default node settings, the empty/inactive producer,
the default of the settings value type); when parsing a document, the
message-queue section is required — omitting it is rejected — while a
document providing only it parses, every other section falling back to
its default (the logger one to `default_logger_settings`). -/
theorem app_config_defaults_and_required (dmem : Nat)
    (kvs : List (String × Value)) :
    AppConfig.default dmem = AppConfig.mk none (NodeConfig.default dmem)
      (KafkaConfig.mk (KafkaProducerConfig.mk "" "" none none 0 none))
      Value.null ∧
    ("kafka_settings" ∉ kvs.map Prod.fst →
      AppConfig.deserialize dmem (Value.map kvs) = none) ∧
    AppConfig.deserialize dmem (Value.map [("kafka_settings", Value.map [])]) =
      some (AppConfig.mk none (NodeConfig.default dmem) KafkaConfig.default
        default_logger_settings) := by
  refine ⟨rfl, ?_, rfl⟩
  intro hk
  have hlook : Value.lookup kvs "kafka_settings" = none :=
    lookup_eq_none_of_not_mem hk
  simp only [AppConfig.deserialize]
  cases h1 : fieldWithDefault kvs "rpc_config"
      (deserializeOption StatesConfig.deserialize) none with
  | none => simp [h1]
  | some rpc =>
    cases h2 : fieldWithDefault kvs "node_settings"
        (NodeConfig.deserialize dmem) (NodeConfig.default dmem) with
    | none => simp [h1, h2]
    | some node => simp [h1, h2, requiredField, hlook]

/-- C9 witness: at concrete inputs, the empty document is rejected and
the kafka-only document parses to the defaulted configuration. -/
theorem app_config_defaults_and_required_witness :
    AppConfig.deserialize 0 (Value.map []) = none ∧
    AppConfig.deserialize 0 (Value.map [("kafka_settings", Value.map [])]) =
      some (AppConfig.mk none (NodeConfig.default 0) KafkaConfig.default
        default_logger_settings) :=
  ⟨(app_config_defaults_and_required 0 []).2.1 (by decide),
    (app_config_defaults_and_required 0 []).2.2⟩
end TonKafka
